import Mathlib

/-!
Shallow embedding of the agentic BOP workflow (Python repository) in Lean 4.

Conventions of the embedding:
* A Python `str` is a Lean `String`; slicing `s[:n]` is `pyTake n s`
  (both count Unicode code points).
* A Python `dict` built and read in insertion order is an association list
  `List (key × value)`; `d.get(k, default)` is `(l.lookup k).getD default`.
* JSON-serialisable values (agent metadata, the run summary) are `JVal`;
  writing `json.dumps(obj)` to a file is modelled by storing the structured
  object itself, since every claim is about the object's fields.
* Wall-clock readings (`time.time()` deltas) and remote vendor responses are
  inputs of the embedding: a `VendorOutcome` says whether the lazily created
  client was absent (`noClient`), the vendor call returned (`ok`), or the
  vendor call raised (`thrown`), together with the elapsed seconds as an
  exact rational.  Python's `round(x, 2)` on floats is modelled by exact
  rational rounding `pyRound2`; its tie behaviour is irrelevant to every
  claim below.
* Python functions that cannot raise become total Lean functions; "never
  raises out of this layer" is reflected by the adapter being a total
  function into `String × Meta`.
-/

/-- Python `s[:n]`: the first `n` code points of `s`. -/
def pyTake (n : Nat) (s : String) : String := String.mk (s.data.take n)

/-- Python `sep.join(xs)`. -/
def pyJoin (sep : String) : List String → String
  | [] => ""
  | [x] => x
  | x :: y :: xs => x ++ sep ++ pyJoin sep (y :: xs)

/-- Python `x or d` for an optional string `x`: `None` and `""` are falsy. -/
def pyOrStr (x : Option String) (d : String) : String :=
  match x with
  | none => d
  | some s => if s = "" then d else s

/-- Python `round(q, 2)` modelled on exact rationals. -/
def pyRound2 (q : ℚ) : ℚ := ((round (q * 100) : ℤ) : ℚ) / 100

/-- JSON-like values: the scalars and containers appearing in the
metadata dictionaries and run summaries of the repository. -/
inductive JVal where
  | str : String → JVal
  | num : ℚ → JVal
  | null : JVal
  | arr : List JVal → JVal
  | obj : List (String × JVal) → JVal

/-- Metadata dictionary (`Dict[str, Any]` holding scalars), in insertion order. -/
abbrev Meta := List (String × JVal)

/-- Python `meta.get(k, d)` where the looked-up value is numeric whenever the
key is present (true of every metadata object this system produces; the
fallback on a non-numeric value is never exercised). -/
def metaNumD (m : Meta) (k : String) (d : ℚ) : ℚ :=
  match m.lookup k with
  | some (JVal.num q) => q
  | some _ => d
  | none => d

/-- `src/config.py` `Settings`: the environment-derived configuration consumed
by the adapter layer (credentials are reflected in the `VendorOutcome` of each
call: `noClient` when no key, hence no client, is configured). -/
structure Settings where
  model_name_openai : String := "gpt-4o"
  model_name_anthropic : String := "claude-3-5-sonnet-20241022"
  temperature : ℚ := 2/10
  max_tokens : Nat := 4096

/-- `response.usage` of the OpenAI SDK. -/
structure OpenAIUsage where
  prompt_tokens : Nat
  completion_tokens : Nat
  total_tokens : Nat

/-- The OpenAI chat-completions response, restricted to the fields the code
reads: `choices[0].message.content` (possibly `None`) and `usage`. -/
structure OpenAIResponse where
  content : Option String
  usage : Option OpenAIUsage

/-- `message.usage` of the Anthropic SDK. -/
structure AnthropicUsage where
  input_tokens : Nat
  output_tokens : Nat

/-- One block of `message.content` in the Anthropic response. -/
structure ContentBlock where
  btype : String
  text : String

/-- The Anthropic messages response, restricted to the fields the code reads. -/
structure AnthropicResponse where
  content : List ContentBlock
  usage : Option AnthropicUsage

/-- Outcome of one attempted vendor call, an input of the embedding:
`noClient` if the lazily initialised client is `None` (no credential),
`ok resp elapsed` if the call returned, `thrown msg elapsed` if it raised
an exception rendering as `msg`. -/
inductive VendorOutcome (R : Type) where
  | noClient : VendorOutcome R
  | ok : R → ℚ → VendorOutcome R
  | thrown : String → ℚ → VendorOutcome R

/-- `LLMAgent.__init__` state: a name and a system prompt. -/
structure LLMAgent where
  name : String
  system_prompt : String

/-- `AgentResult`: content plus metadata. -/
structure AgentResult where
  content : String
  meta : Meta

/-- `LLMAgent._call_openai`: stub path when the client is absent, normal path
extracting `choices[0].message.content or ""` and the usage counts (defaulting
to 0 when `response.usage` is falsy), error path catching the exception. -/
def LLMAgent.call_openai (settings : Settings) (a : LLMAgent)
    (outcome : VendorOutcome OpenAIResponse) (prompt : String) : String × Meta :=
  match outcome with
  | .noClient =>
      ("[" ++ a.name ++ "] OPENAI_API_KEY not set; returning stub output.\n\nPROMPT:\n"
         ++ pyTake 1000 prompt,
       [("error", JVal.str "No OpenAI client available")])
  | .ok r duration =>
      (r.content.getD "",
       [("model", JVal.str settings.model_name_openai),
        ("tokens_prompt", JVal.num (match r.usage with
          | some u => (u.prompt_tokens : ℚ) | none => 0)),
        ("tokens_completion", JVal.num (match r.usage with
          | some u => (u.completion_tokens : ℚ) | none => 0)),
        ("tokens_total", JVal.num (match r.usage with
          | some u => (u.total_tokens : ℚ) | none => 0)),
        ("duration_seconds", JVal.num (pyRound2 duration))])
  | .thrown e duration =>
      ("[" ++ a.name ++ "] Error calling OpenAI: " ++ e,
       [("error", JVal.str e),
        ("duration_seconds", JVal.num (pyRound2 duration))])

/-- `LLMAgent._call_anthropic`: stub path, normal path joining the text blocks
with newlines and normalising the usage fields, error path. -/
def LLMAgent.call_anthropic (settings : Settings) (a : LLMAgent)
    (outcome : VendorOutcome AnthropicResponse) (prompt : String) : String × Meta :=
  match outcome with
  | .noClient =>
      ("[" ++ a.name ++ "] ANTHROPIC_API_KEY not set; returning stub output.\n\nPROMPT:\n"
         ++ pyTake 1000 prompt,
       [("error", JVal.str "No Anthropic client available")])
  | .ok r duration =>
      (pyJoin "\n" ((r.content.filter (fun b => b.btype = "text")).map ContentBlock.text),
       [("model", JVal.str settings.model_name_anthropic),
        ("tokens_prompt", JVal.num (match r.usage with
          | some u => (u.input_tokens : ℚ) | none => 0)),
        ("tokens_completion", JVal.num (match r.usage with
          | some u => (u.output_tokens : ℚ) | none => 0)),
        ("tokens_total", JVal.num (match r.usage with
          | some u => ((u.input_tokens : ℚ) + (u.output_tokens : ℚ)) | none => 0)),
        ("duration_seconds", JVal.num (pyRound2 duration))])
  | .thrown e duration =>
      ("[" ++ a.name ++ "] Error calling Anthropic: " ++ e,
       [("error", JVal.str e),
        ("duration_seconds", JVal.num (pyRound2 duration))])

/-- The external inputs of one `LLMAgent.run` call: the outcome the OpenAI or
the Anthropic branch would see, and the elapsed wall-clock of the whole call. -/
structure CallWorld where
  openai : VendorOutcome OpenAIResponse
  anthropic : VendorOutcome AnthropicResponse
  total_elapsed : ℚ

/-- `LLMAgent.run`: dispatches on the backend string (anything other than
"anthropic" goes to OpenAI) and prepends the agent/backend/total-duration
entries to the call metadata (key sets are disjoint, so Python's dict merge
is plain concatenation here). -/
def LLMAgent.run (settings : Settings) (a : LLMAgent) (prompt : String)
    (backend : String) (w : CallWorld) : AgentResult :=
  let pair :=
    if backend = "anthropic" then a.call_anthropic settings w.anthropic prompt
    else a.call_openai settings w.openai prompt
  { content := pair.1,
    meta := [("agent", JVal.str a.name),
             ("backend", JVal.str backend),
             ("total_duration_seconds", JVal.num (pyRound2 w.total_elapsed))] ++ pair.2 }

/-- `ComparisonAgent.run` user prompt (stage 1): each document excerpt is cut
to 8000 code points, with "..." appended only when the document exceeds 8000. -/
def comparisonUserPrompt (documents : List (String × String)) : String :=
  let docs_summary := pyJoin "\n\n" (documents.map (fun p =>
    if 8000 < p.2.data.length then "### " ++ p.1 ++ "\n\n" ++ pyTake 8000 p.2 ++ "..."
    else "### " ++ p.1 ++ "\n\n" ++ p.2))
  "You are given multiple rig procedures and JSAs for BOP operations.\n" ++
    "Perform a comprehensive inventory, structure mapping, and detailed comparison.\n\n" ++
    "# Documents\n\n" ++ docs_summary

/-- `ComparisonAgent`: wraps an `LLMAgent` named "Agent 1 – Comparison Analyst"
whose system prompt came from the template file or the hardcoded default. -/
structure ComparisonAgent where
  agent : LLMAgent

/-- `ComparisonAgent.run`: builds the stage-1 user prompt from the documents
(`previous_outputs` is accepted but unused, as in the source) and delegates. -/
def ComparisonAgent.run (settings : Settings) (c : ComparisonAgent)
    (documents : List (String × String)) (_previous_outputs : List (String × String))
    (backend : String) (w : CallWorld) : AgentResult :=
  c.agent.run settings (comparisonUserPrompt documents) backend w

/-- System prompt rewritten by `GapDetectorAgent.run` before each call: the
stored base prompt, the operation label, and the first 1500 code points of the
first document in iteration order (empty when there are no documents). -/
def gapDetectorSystemPrompt (base_prompt : String) (operation_name : Option String)
    (documents : List (String × String)) : String :=
  let op_label := pyOrStr operation_name "the current operation described in the documents"
  let first_doc := ((documents.head?).map Prod.snd).getD ""
  let source_snippet := pyTake 1500 first_doc
  base_prompt ++ "\n\nOperation context: " ++ op_label ++
    ".\nSource document snippet (for grounding):\n" ++ source_snippet

/-- `GapDetectorAgent.run` user prompt (stage 2): splices `previous_outputs
.get("agent1", "")` in full, with no truncation. -/
def gapDetectorUserPrompt (previous_outputs : List (String × String)) : String :=
  let agent1_output := (previous_outputs.lookup "agent1").getD ""
  "You are analyzing BOP procedures for gaps and misalignments.\n\n" ++
    "# Agent 1 Comparison Output\n\n" ++ agent1_output ++ "\n\n" ++
    "Based on this comparison, identify all gaps, missing steps, hazards, and misalignments."

/-- `GapDetectorAgent`: keeps the base prompt and the wrapped `LLMAgent`
(whose `system_prompt` field `run` overwrites on every call). -/
structure GapDetectorAgent where
  base_prompt : String
  agent : LLMAgent

/-- `GapDetectorAgent.run`: overwrites `self.agent.system_prompt` from the base
prompt and this call's arguments, then delegates.  Returns the result together
with the post-call object state. -/
def GapDetectorAgent.run (settings : Settings) (g : GapDetectorAgent)
    (documents : List (String × String)) (previous_outputs : List (String × String))
    (backend : String) (operation_name : Option String) (w : CallWorld) :
    AgentResult × GapDetectorAgent :=
  let a : LLMAgent :=
    { name := g.agent.name,
      system_prompt := gapDetectorSystemPrompt g.base_prompt operation_name documents }
  (a.run settings (gapDetectorUserPrompt previous_outputs) backend w,
   { g with agent := a })

/-- `HPEvaluatorAgent.run` user prompt (stage 3): agent1's output cut to 6000
and agent2's to 4000 code points, "..." appended unconditionally. -/
def hpEvaluatorUserPrompt (previous_outputs : List (String × String)) : String :=
  let agent1_output := (previous_outputs.lookup "agent1").getD ""
  let agent2_output := (previous_outputs.lookup "agent2").getD ""
  "You are evaluating human performance factors in BOP procedures.\n\n" ++
    "# Agent 1 Comparison Output\n\n" ++ pyTake 6000 agent1_output ++ "...\n\n" ++
    "# Agent 2 Gap Analysis\n\n" ++ pyTake 4000 agent2_output ++ "...\n\n" ++
    "Evaluate human performance maturity, critical controls, and error prevention."

/-- `HPEvaluatorAgent`: wraps an `LLMAgent` named "Agent 3 – HP Evaluator". -/
structure HPEvaluatorAgent where
  agent : LLMAgent

/-- `HPEvaluatorAgent.run`. -/
def HPEvaluatorAgent.run (settings : Settings) (h : HPEvaluatorAgent)
    (_documents : List (String × String)) (previous_outputs : List (String × String))
    (backend : String) (w : CallWorld) : AgentResult :=
  h.agent.run settings (hpEvaluatorUserPrompt previous_outputs) backend w

/-- `EquipmentValidatorAgent.run` user prompt (stage 4): every document cut to
6000 code points with "..." appended unconditionally, and agent1's output cut
to 4000 code points with "..." appended unconditionally. -/
def equipmentValidatorUserPrompt (documents : List (String × String))
    (previous_outputs : List (String × String)) : String :=
  let docs_summary := pyJoin "\n\n" (documents.map (fun p =>
    "### " ++ p.1 ++ "\n\n" ++ pyTake 6000 p.2 ++ "..."))
  let agent1_output := (previous_outputs.lookup "agent1").getD ""
  "You are validating equipment specifications for BOP standardization.\n\n" ++
    "# Documents (Equipment Sections)\n\n" ++ docs_summary ++ "\n\n" ++
    "# Agent 1 Comparison (for context)\n\n" ++ pyTake 4000 agent1_output ++ "...\n\n" ++
    "Extract and compare all equipment specifications. Assess standardization feasibility."

/-- `EquipmentValidatorAgent`: keeps the base prompt and the wrapped `LLMAgent`. -/
structure EquipmentValidatorAgent where
  base_prompt : String
  agent : LLMAgent

/-- System prompt rewritten by `EquipmentValidatorAgent.run` before each call
(same construction as the gap detector's). -/
def equipmentValidatorSystemPrompt (base_prompt : String) (operation_name : Option String)
    (documents : List (String × String)) : String :=
  let op_label := pyOrStr operation_name "the current operation described in the documents"
  let first_doc := ((documents.head?).map Prod.snd).getD ""
  let source_snippet := pyTake 1500 first_doc
  base_prompt ++ "\n\nOperation context: " ++ op_label ++
    ".\nSource document snippet (for grounding):\n" ++ source_snippet

/-- `EquipmentValidatorAgent.run`: overwrites `self.agent.system_prompt`,
then delegates; returns the result with the post-call object state. -/
def EquipmentValidatorAgent.run (settings : Settings) (eq : EquipmentValidatorAgent)
    (documents : List (String × String)) (previous_outputs : List (String × String))
    (backend : String) (operation_name : Option String) (w : CallWorld) :
    AgentResult × EquipmentValidatorAgent :=
  let a : LLMAgent :=
    { name := eq.agent.name,
      system_prompt := equipmentValidatorSystemPrompt eq.base_prompt operation_name documents }
  (a.run settings (equipmentValidatorUserPrompt documents previous_outputs) backend w,
   { eq with agent := a })

/-- `StandardisationWriterAgent.run` user prompt (stage 5): agent1 cut to 5000
and agent2, agent3, agent4 each cut to 4000 code points, "..." appended
unconditionally; stages absent from the context contribute `""`. -/
def standardisationWriterUserPrompt (previous_outputs : List (String × String)) : String :=
  let agent1_output := (previous_outputs.lookup "agent1").getD ""
  let agent2_output := (previous_outputs.lookup "agent2").getD ""
  let agent3_output := (previous_outputs.lookup "agent3").getD ""
  let agent4_output := (previous_outputs.lookup "agent4").getD ""
  "You are creating the final standardized BOP procedures.\n\n" ++
    "# Agent 1 – Comparison Analysis\n\n" ++ pyTake 5000 agent1_output ++ "...\n\n" ++
    "# Agent 2 – Gap Analysis\n\n" ++ pyTake 4000 agent2_output ++ "...\n\n" ++
    "# Agent 3 – HP Evaluation\n\n" ++ pyTake 4000 agent3_output ++ "...\n\n" ++
    "# Agent 4 – Equipment Validation\n\n" ++ pyTake 4000 agent4_output ++ "...\n\n" ++
    "Synthesize all findings into a comprehensive standardized ROP and JSA."

/-- `StandardisationWriterAgent`: wraps an `LLMAgent`. -/
structure StandardisationWriterAgent where
  agent : LLMAgent

/-- `StandardisationWriterAgent.run`. -/
def StandardisationWriterAgent.run (settings : Settings) (s : StandardisationWriterAgent)
    (_documents : List (String × String)) (previous_outputs : List (String × String))
    (backend : String) (w : CallWorld) : AgentResult :=
  s.agent.run settings (standardisationWriterUserPrompt previous_outputs) backend w

/-- `IntegratedComplianceAgent`: wraps an `LLMAgent`. -/
structure IntegratedComplianceAgent where
  agent : LLMAgent

/-- Context dictionary handed to `IntegratedComplianceAgent._build_user_prompt`
(the orchestrator always populates all four keys, so the builder's `get`
defaults collapse to plain field reads). -/
structure IntegratedContext where
  rig_name : String
  operation_type : String
  adnoc_cps : List String
  constraints : String

/-- `IntegratedComplianceAgent._build_user_prompt`: context header, optional
Corporate-Practices section, documents each cut to 10000 code points with a
truncation marker when over budget, and the fixed instruction block. -/
def buildIntegratedUserPrompt (ctx : IntegratedContext)
    (documents : List (String × String)) : String :=
  let doc_sections := documents.map (fun p =>
    let content :=
      if 10000 < p.2.data.length then
        pyTake 10000 p.2 ++ "\n\n[... Document truncated for processing ...]"
      else p.2
    "## " ++ p.1 ++ "\n\n" ++ content)
  let documents_text := pyJoin "\n\n---\n\n" doc_sections
  let cp_section :=
    if ctx.adnoc_cps.isEmpty then ""
    else "\n## Applicable ADNOC Corporate Practices\n\n" ++
      pyJoin "\n" (ctx.adnoc_cps.map (fun cp => "- " ++ cp)) ++ "\n"
  "# Integrated Compliance Analysis Request\n\n## Context\n\n- **Rig Name**: " ++
    ctx.rig_name ++ "\n- **Operation Type**: " ++ ctx.operation_type ++
    "\n- **Constraints**: " ++ ctx.constraints ++ "\n" ++ cp_section ++
    "\n\n## Source Documents\n\n" ++ documents_text ++
    "\n\n---\n\n## Instructions\n\n" ++
    "Using the integrated compliance template, produce a complete ROP package that includes:\n\n" ++
    "1. **Part 1: Rig Operating Procedure**\n   - Follow ADNOC ROP template structure exactly\n" ++
    "   - All 13 required sections must be present\n   - Include HOLD POINTS and critical controls\n\n" ++
    "2. **Part 2: Gap Analysis Report**\n   - Map against all applicable ADNOC CPs\n" ++
    "   - Identify all gaps with priority ratings\n   - Provide remediation actions for each gap\n\n" ++
    "3. **Part 3: Human Performance Assessment**\n   - Identify error-prone steps\n" ++
    "   - Document HP controls applied\n   - Include verification requirements\n\n" ++
    "4. **Part 4: Equipment Validation Matrix**\n   - List all equipment with catalog numbers\n" ++
    "   - Verify compliance status\n   - Flag any non-compliant items\n\n" ++
    "5. **Part 5: Document Control & Appendices**\n   - Revision history\n" ++
    "   - Distribution list\n   - All supporting matrices\n\n" ++
    "6. **Part 6: Compliance Certification**\n   - Confirm review against all requirements\n" ++
    "   - Signature blocks for approval\n\n" ++
    "Ensure the output is:\n- Field-ready and immediately usable\n" ++
    "- Audit-compliant with full traceability\n- Consistent in terminology and formatting\n" ++
    "- Aligned with ADNOC operational excellence standards\n\n" ++
    "Proceed with the complete integrated analysis.\n"

/-- `IntegratedComplianceAgent.run`. -/
def IntegratedComplianceAgent.run (settings : Settings) (i : IntegratedComplianceAgent)
    (documents : List (String × String)) (ctx : IntegratedContext)
    (backend : String) (w : CallWorld) : AgentResult :=
  i.agent.run settings (buildIntegratedUserPrompt ctx documents) backend w

/-- `WorkflowConfig` of the orchestrator. -/
structure WorkflowConfig where
  backend : String := "openai"
  output_base_dir : String := "outputs"
  mode : String := "sequential"
  rig_name : Option String := none
  operation_type : Option String := none
  adnoc_cps : List String := []
  constraints : Option String := none

/-- `ADNOCWorkflow.__init__` state: the configuration and the six agents. -/
structure ADNOCWorkflow where
  config : WorkflowConfig
  agent1 : ComparisonAgent
  agent2 : GapDetectorAgent
  agent3 : HPEvaluatorAgent
  agent4 : EquipmentValidatorAgent
  agent5 : StandardisationWriterAgent
  integrated_agent : IntegratedComplianceAgent

/-- Contents written to disk: a Markdown text file or a JSON object file. -/
inductive FileContent where
  | text : String → FileContent
  | json : List (String × JVal) → FileContent

/-- External inputs of one five-stage run: the call world of each stage. -/
structure WorkflowWorld where
  w1 : CallWorld
  w2 : CallWorld
  w3 : CallWorld
  w4 : CallWorld
  w5 : CallWorld

/-- Observable outcome of one workflow invocation: the output directory path
segments, the files written in order, the persisted summary object, the five
stage results in order, and the run context passed to each stage. -/
structure RunOutput where
  out_dir : List String
  files : List (String × FileContent)
  summary : List (String × JVal)
  results : List AgentResult
  contexts : List (List (String × String))

/-- One `agents` entry of the sequential summary: the stage metadata plus the
stage name (`save_result`). -/
def summaryAgentsEntry (name : String) (r : AgentResult) : JVal :=
  JVal.obj (r.meta ++ [("name", JVal.str name)])

/-- The two files `save_result` writes for one stage. -/
def stageFiles (name : String) (r : AgentResult) : List (String × FileContent) :=
  [(name ++ ".md", FileContent.text r.content),
   (name ++ ".meta.json", FileContent.json r.meta)]

/-- Final value of the summary dict of `run_complete_workflow`: the initial
literal, after `save_result` has appended each stage to `agents` and added
each stage's `tokens_total` and `total_duration_seconds` (default 0) to the
running totals, in stage order. -/
def sequentialSummary (operation_name ts backend : String)
    (stages : List (String × AgentResult)) : List (String × JVal) :=
  [("operation", JVal.str operation_name),
   ("timestamp", JVal.str ts),
   ("backend", JVal.str backend),
   ("agents", JVal.arr (stages.map (fun p => summaryAgentsEntry p.1 p.2))),
   ("total_tokens", JVal.num
     (stages.foldl (fun acc p => acc + metaNumD p.2.meta "tokens_total" 0) 0)),
   ("total_duration_seconds", JVal.num
     (stages.foldl (fun acc p => acc + metaNumD p.2.meta "total_duration_seconds" 0) 0))]

/-- `ADNOCWorkflow.run_complete_workflow`: the five stages in fixed order, each
receiving the documents and the context accumulated so far; `save_result`
persists content and metadata per stage and accumulates the summary totals;
the summary is persisted last.  `time.strftime` is the input `ts`. -/
def runCompleteWorkflow (settings : Settings) (wf : ADNOCWorkflow)
    (operation_name ts : String) (documents : List (String × String))
    (world : WorkflowWorld) : RunOutput :=
  let backend := wf.config.backend
  let previous0 : List (String × String) := []
  let r1 := wf.agent1.run settings documents previous0 backend world.w1
  let previous1 := previous0 ++ [("agent1", r1.content)]
  let r2 := (wf.agent2.run settings documents previous1 backend none world.w2).1
  let previous2 := previous1 ++ [("agent2", r2.content)]
  let r3 := wf.agent3.run settings documents previous2 backend world.w3
  let previous3 := previous2 ++ [("agent3", r3.content)]
  let r4 := (wf.agent4.run settings documents previous3 backend none world.w4).1
  let previous4 := previous3 ++ [("agent4", r4.content)]
  let r5 := wf.agent5.run settings documents previous4 backend world.w5
  let stages := [("agent1_comparison", r1), ("agent2_gaps", r2),
                 ("agent3_hp_evaluation", r3), ("agent4_equipment_validation", r4),
                 ("agent5_standardisation", r5)]
  let summary := sequentialSummary operation_name ts backend stages
  { out_dir := [wf.config.output_base_dir, operation_name, ts],
    files := (stages.map (fun p => stageFiles p.1 p.2)).flatten ++
      [("summary.json", FileContent.json summary)],
    summary := summary,
    results := stages.map Prod.snd,
    contexts := [previous0, previous1, previous2, previous3, previous4] }

/-- Python `x if x is truthy else d` used by the integrated summary for the
optional config strings serialised as JSON (None becomes null). -/
def JVal.ofOptStr : Option String → JVal
  | some s => JVal.str s
  | none => JVal.null

/-- `ADNOCWorkflow.run_integrated_workflow`: a single agent invocation on a
context assembled from the config, one content/metadata file pair, and a
summary carrying mode "integrated" and the single agent's metadata. -/
def runIntegratedWorkflow (settings : Settings) (wf : ADNOCWorkflow)
    (operation_name ts : String) (documents : List (String × String))
    (w : CallWorld) : RunOutput :=
  let ctx : IntegratedContext :=
    { rig_name := pyOrStr wf.config.rig_name "Not specified",
      operation_type := pyOrStr wf.config.operation_type operation_name,
      adnoc_cps := wf.config.adnoc_cps,
      constraints := pyOrStr wf.config.constraints "None specified" }
  let result := wf.integrated_agent.run settings documents ctx wf.config.backend w
  let summary : List (String × JVal) :=
    [("operation", JVal.str operation_name),
     ("timestamp", JVal.str ts),
     ("backend", JVal.str wf.config.backend),
     ("mode", JVal.str "integrated"),
     ("rig_name", JVal.ofOptStr wf.config.rig_name),
     ("operation_type", JVal.ofOptStr wf.config.operation_type),
     ("agent", JVal.obj result.meta),
     ("total_tokens", JVal.num (metaNumD result.meta "tokens_total" 0)),
     ("total_duration_seconds", JVal.num (metaNumD result.meta "total_duration_seconds" 0))]
  { out_dir := [wf.config.output_base_dir, operation_name, "integrated-" ++ ts],
    files := [("integrated_rop_package.md", FileContent.text result.content),
              ("integrated_rop_package.meta.json", FileContent.json result.meta),
              ("summary.json", FileContent.json summary)],
    summary := summary,
    results := [result],
    contexts := [] }

/-- Truncation step of stage 1 (`ComparisonAgent.run`): the first `b` code
points with "..." appended when the text exceeds `b`, the text itself
otherwise. -/
def truncateCond (b : Nat) (t : String) : String :=
  if b < t.data.length then pyTake b t ++ "..." else t

/-- Truncation step of stages 3, 4 and 5 (`HPEvaluatorAgent.run`,
`EquipmentValidatorAgent.run`, `StandardisationWriterAgent.run`): the first `b`
code points with "..." appended unconditionally. -/
def truncateAlways (b : Nat) (t : String) : String := pyTake b t ++ "..."

/-- A concrete workflow instance (default config, template-less system
prompts) used to evaluate the embedding on closed inputs. -/
def sampleWorkflow : ADNOCWorkflow :=
  { config := {},
    agent1 := ⟨⟨"Agent 1 – Comparison Analyst", ""⟩⟩,
    agent2 := ⟨"", ⟨"Agent 2 – Gap Detector", ""⟩⟩,
    agent3 := ⟨⟨"Agent 3 – HP Evaluator", ""⟩⟩,
    agent4 := ⟨"", ⟨"Agent 4 – Equipment Validator", ""⟩⟩,
    agent5 := ⟨⟨"Agent 5 – Standardisation Writer", ""⟩⟩,
    integrated_agent := ⟨⟨"Integrated Compliance Agent", ""⟩⟩ }

/-- A call world in which neither vendor client is configured. -/
def stubCallWorld : CallWorld :=
  ⟨VendorOutcome.noClient, VendorOutcome.noClient, 0⟩

/-- Strings with equal code-point lists are equal. -/
theorem strEq_of_data (a b : String) (h : a.data = b.data) : a = b := by
  cases a; cases b; exact congrArg String.mk h

/-- Code points of a concatenation. -/
theorem strData_append (a b : String) : (a ++ b).data = a.data ++ b.data := by
  cases a; cases b; rfl

/-- Code points of `pyTake`. -/
theorem pyTake_data (n : Nat) (s : String) : (pyTake n s).data = s.data.take n := rfl

/-- Taking back the first `b` code points of a `b`-length prefix concatenated
with anything returns that prefix. -/
theorem pyTake_append_of_length (b : Nat) (t u : String) (h : b ≤ t.data.length) :
    pyTake b (pyTake b t ++ u) = pyTake b t := by
  apply strEq_of_data
  rw [pyTake_data, strData_append, pyTake_data]
  rw [List.take_append_eq_append_take]
  have h1 : (t.data.take b).length = b := by
    rw [List.length_take]; omega
  rw [h1, List.take_take, Nat.sub_self, List.take_zero, List.append_nil,
    Nat.min_self]

/-- Assoc-list lookup at the key just inserted. -/
theorem lookup_cons_self {β : Type} (k : String) (v : β) (l : List (String × β)) :
    ((k, v) :: l).lookup k = some v := by
  simp [List.lookup]

/-- Assoc-list lookup skips an entry with a different key. -/
theorem lookup_cons_ne {β : Type} (k k' : String) (v : β) (l : List (String × β))
    (h : k ≠ k') : ((k', v) :: l).lookup k = l.lookup k := by
  have hb : (k == k') = false := beq_false_of_ne h
  simp [List.lookup, hb]

/-- C1: for every prompt and backend, when the vendor call throws, the adapter
call (`_call_openai` / `_call_anthropic`) catches it and returns (it is a total
function, so nothing escapes this layer) an error-annotated text containing the
agent name and the error message, with metadata containing the error message
and the rounded elapsed time. -/
theorem C1_error_absorbed :
    ∀ (settings : Settings) (a : LLMAgent) (e : String) (d : ℚ) (prompt : String),
      (∃ u v, (a.call_openai settings (.thrown e d) prompt).1 = u ++ a.name ++ v ++ e) ∧
      (a.call_openai settings (.thrown e d) prompt).2.lookup "error" = some (JVal.str e) ∧
      (a.call_openai settings (.thrown e d) prompt).2.lookup "duration_seconds"
        = some (JVal.num (pyRound2 d)) ∧
      (∃ u v, (a.call_anthropic settings (.thrown e d) prompt).1 = u ++ a.name ++ v ++ e) ∧
      (a.call_anthropic settings (.thrown e d) prompt).2.lookup "error" = some (JVal.str e) ∧
      (a.call_anthropic settings (.thrown e d) prompt).2.lookup "duration_seconds"
        = some (JVal.num (pyRound2 d)) := by
  intro settings a e d prompt
  exact ⟨⟨"[", "] Error calling OpenAI: ", rfl⟩, rfl, rfl,
         ⟨"[", "] Error calling Anthropic: ", rfl⟩, rfl, rfl⟩

/-- C9: on either backend, when no credential is configured (the vendor client
is absent) the adapter call is total (never raises) and returns a pair whose
text is non-empty, contains the literal substring "stub output", ends with a
prefix of at most 1000 code points of the prompt, and whose metadata has an
`error` key. -/
theorem C9_stub_path :
    ∀ (settings : Settings) (a : LLMAgent) (prompt : String),
      (a.call_openai settings .noClient prompt).1 ≠ "" ∧
      (∃ u v, (a.call_openai settings .noClient prompt).1 = u ++ "stub output" ++ v) ∧
      (∃ u, (a.call_openai settings .noClient prompt).1 = u ++ pyTake 1000 prompt) ∧
      (pyTake 1000 prompt).data.length ≤ 1000 ∧
      ((a.call_openai settings .noClient prompt).2.lookup "error").isSome = true ∧
      (a.call_anthropic settings .noClient prompt).1 ≠ "" ∧
      (∃ u v, (a.call_anthropic settings .noClient prompt).1 = u ++ "stub output" ++ v) ∧
      (∃ u, (a.call_anthropic settings .noClient prompt).1 = u ++ pyTake 1000 prompt) ∧
      ((a.call_anthropic settings .noClient prompt).2.lookup "error").isSome = true := by
  intro settings a prompt
  have hlen : (pyTake 1000 prompt).data.length ≤ 1000 := by
    rw [pyTake_data, List.length_take]; omega
  refine ⟨?_, ?_, ?_, hlen, rfl, ?_, ?_, ?_, rfl⟩
  · intro h
    have h2 := congrArg String.data h
    simp [LLMAgent.call_openai, strData_append] at h2
  · exact ⟨"[" ++ a.name ++ "] OPENAI_API_KEY not set; returning ",
      ".\n\nPROMPT:\n" ++ pyTake 1000 prompt,
      by apply strEq_of_data
         simp [LLMAgent.call_openai, strData_append, List.append_assoc]⟩
  · exact ⟨"[" ++ a.name ++ "] OPENAI_API_KEY not set; returning stub output.\n\nPROMPT:\n",
      by apply strEq_of_data
         simp [LLMAgent.call_openai, strData_append, List.append_assoc]⟩
  · intro h
    have h2 := congrArg String.data h
    simp [LLMAgent.call_anthropic, strData_append] at h2
  · exact ⟨"[" ++ a.name ++ "] ANTHROPIC_API_KEY not set; returning ",
      ".\n\nPROMPT:\n" ++ pyTake 1000 prompt,
      by apply strEq_of_data
         simp [LLMAgent.call_anthropic, strData_append, List.append_assoc]⟩
  · exact ⟨"[" ++ a.name ++ "] ANTHROPIC_API_KEY not set; returning stub output.\n\nPROMPT:\n",
      by apply strEq_of_data
         simp [LLMAgent.call_anthropic, strData_append, List.append_assoc]⟩

/-- C2 as stated is false: on the no-credential stub path the returned metadata
contains neither the resolved model identifier nor any token field, and on the
vendor-error path it contains no token fields either (concretely, with default
settings, agent name "Agent 1 – Comparison Analyst" and prompt "p"). -/
theorem C2_counterexample :
    (LLMAgent.call_openai {} ⟨"Agent 1 – Comparison Analyst", ""⟩
      VendorOutcome.noClient "p").2.lookup "model" = none ∧
    (LLMAgent.call_openai {} ⟨"Agent 1 – Comparison Analyst", ""⟩
      VendorOutcome.noClient "p").2.lookup "tokens_total" = none ∧
    (LLMAgent.call_openai {} ⟨"Agent 1 – Comparison Analyst", ""⟩
      (VendorOutcome.thrown "boom" 0) "p").2.lookup "tokens_prompt" = none ∧
    (LLMAgent.call_anthropic {} ⟨"Agent 1 – Comparison Analyst", ""⟩
      VendorOutcome.noClient "p").2.lookup "model" = none :=
  ⟨rfl, rfl, rfl, rfl⟩

/-- C2 amended: only on the success path does the metadata contain the resolved
model identifier and the four fields tokens_prompt, tokens_completion,
tokens_total and duration_seconds (token counts defaulting to 0 when the
vendor usage object is absent), and there the field set has the same shape for
both backends; on the vendor-error path the metadata holds exactly error and
duration_seconds, and on the stub path exactly error. -/
theorem C2_metadata_shape :
    ∀ (settings : Settings) (a : LLMAgent) (prompt : String),
      (∀ (r : OpenAIResponse) (d : ℚ),
        ((a.call_openai settings (.ok r d) prompt).2.map Prod.fst)
          = ["model", "tokens_prompt", "tokens_completion", "tokens_total",
             "duration_seconds"]) ∧
      (∀ (r : AnthropicResponse) (d : ℚ),
        ((a.call_anthropic settings (.ok r d) prompt).2.map Prod.fst)
          = ["model", "tokens_prompt", "tokens_completion", "tokens_total",
             "duration_seconds"]) ∧
      (∀ (r : OpenAIResponse) (d : ℚ),
        (a.call_openai settings (.ok r d) prompt).2.lookup "model"
          = some (JVal.str settings.model_name_openai)) ∧
      (∀ (r : AnthropicResponse) (d : ℚ),
        (a.call_anthropic settings (.ok r d) prompt).2.lookup "model"
          = some (JVal.str settings.model_name_anthropic)) ∧
      (∀ (r : OpenAIResponse) (d : ℚ), r.usage = none →
        (a.call_openai settings (.ok r d) prompt).2.lookup "tokens_prompt"
            = some (JVal.num 0) ∧
        (a.call_openai settings (.ok r d) prompt).2.lookup "tokens_completion"
            = some (JVal.num 0) ∧
        (a.call_openai settings (.ok r d) prompt).2.lookup "tokens_total"
            = some (JVal.num 0)) ∧
      (∀ (r : AnthropicResponse) (d : ℚ), r.usage = none →
        (a.call_anthropic settings (.ok r d) prompt).2.lookup "tokens_prompt"
            = some (JVal.num 0) ∧
        (a.call_anthropic settings (.ok r d) prompt).2.lookup "tokens_completion"
            = some (JVal.num 0) ∧
        (a.call_anthropic settings (.ok r d) prompt).2.lookup "tokens_total"
            = some (JVal.num 0)) ∧
      (∀ (e : String) (d : ℚ),
        ((a.call_openai settings (.thrown e d) prompt).2.map Prod.fst)
          = ["error", "duration_seconds"] ∧
        ((a.call_anthropic settings (.thrown e d) prompt).2.map Prod.fst)
          = ["error", "duration_seconds"]) ∧
      ((a.call_openai settings .noClient prompt).2.map Prod.fst = ["error"]) ∧
      ((a.call_anthropic settings .noClient prompt).2.map Prod.fst = ["error"]) := by
  intro settings a prompt
  refine ⟨fun r d => rfl, fun r d => rfl, fun r d => rfl, fun r d => rfl,
    ?_, ?_, fun e d => ⟨rfl, rfl⟩, rfl, rfl⟩
  · rintro ⟨rc, ru⟩ d h
    have h2 : ru = none := h
    subst h2
    exact ⟨rfl, rfl, rfl⟩
  · rintro ⟨rc, ru⟩ d h
    have h2 : ru = none := h
    subst h2
    exact ⟨rfl, rfl, rfl⟩

/-- C2 witness: the amended metadata facts evaluated at a concrete response
with an absent usage object, discharging the hypothesis. -/
theorem C2_witness :
    (LLMAgent.call_openai {} ⟨"A", ""⟩ (VendorOutcome.ok ⟨some "ok", none⟩ 1) "p").2.lookup
        "tokens_total" = some (JVal.num 0) ∧
    (LLMAgent.call_anthropic {} ⟨"A", ""⟩ (VendorOutcome.ok ⟨[], none⟩ 1) "p").2.lookup
        "tokens_total" = some (JVal.num 0) :=
  ⟨((C2_metadata_shape {} ⟨"A", ""⟩ "p").2.2.2.2.1 ⟨some "ok", none⟩ 1 rfl).2.2,
   ((C2_metadata_shape {} ⟨"A", ""⟩ "p").2.2.2.2.2.1 ⟨[], none⟩ 1 rfl).2.2⟩

/-- C6 as stated is false for the truncation step used in the stage-5 prompt
(`StandardisationWriterAgent.run`, also stages 3 and 4), which appends the
ellipsis marker unconditionally: at budget 4000 on the one-character text "a",
a second application changes the result. -/
theorem C6_counterexample :
    truncateAlways 4000 (truncateAlways 4000 "a") ≠ truncateAlways 4000 "a" := by
  decide

/-- C6 amended: the conditional truncation step of stage 1 (first `b` code
points, ellipsis appended only when the text exceeds `b`) is idempotent for
every text and budget; the unconditional step used by stages 3, 4 and 5 is
idempotent only on texts at least as long as the budget. -/
theorem C6_truncation_idempotent :
    (∀ (b : Nat) (t : String), truncateCond b (truncateCond b t) = truncateCond b t) ∧
    (∀ (b : Nat) (t : String), b ≤ t.data.length →
      truncateAlways b (truncateAlways b t) = truncateAlways b t) := by
  constructor
  · intro b t
    by_cases h : b < t.data.length
    · have h1 : truncateCond b t = pyTake b t ++ "..." := by
        unfold truncateCond; rw [if_pos h]
      rw [h1]
      have hd : b < (pyTake b t ++ "...").data.length := by
        rw [strData_append, pyTake_data, List.length_append, List.length_take]
        have h3 : ("..." : String).data.length = 3 := rfl
        omega
      have h2 : truncateCond b (pyTake b t ++ "...")
          = pyTake b (pyTake b t ++ "...") ++ "..." := by
        unfold truncateCond; rw [if_pos hd]
      rw [h2, pyTake_append_of_length b t "..." (Nat.le_of_lt h)]
    · have h1 : truncateCond b t = t := by
        unfold truncateCond; rw [if_neg h]
      rw [h1, h1]
  · intro b t h
    unfold truncateAlways
    rw [pyTake_append_of_length b t "..." h]

/-- C6 witness: both parts of the amended idempotence at concrete inputs, the
second with its length hypothesis discharged. -/
theorem C6_witness :
    truncateCond 5 (truncateCond 5 "hello world") = truncateCond 5 "hello world" ∧
    truncateAlways 2 (truncateAlways 2 "abc") = truncateAlways 2 "abc" :=
  ⟨C6_truncation_idempotent.1 5 "hello world",
   C6_truncation_idempotent.2 2 "abc" (by decide)⟩

set_option maxRecDepth 8000 in
/-- C4: the stage-5 prompt includes, for every stage key present in the run
context, that stage's output truncated to its fixed budget (5000 code points
for agent1, 4000 for agent2, agent3, agent4), and a stage key absent from the
context contributes nothing: the prompt is the one built with that stage's
content empty. -/
theorem C4_stage5_prompt :
    ∀ (prev : List (String × String)),
      (∀ v, prev.lookup "agent1" = some v →
        ∃ u w, standardisationWriterUserPrompt prev = u ++ pyTake 5000 v ++ w) ∧
      (∀ v, prev.lookup "agent2" = some v →
        ∃ u w, standardisationWriterUserPrompt prev = u ++ pyTake 4000 v ++ w) ∧
      (∀ v, prev.lookup "agent3" = some v →
        ∃ u w, standardisationWriterUserPrompt prev = u ++ pyTake 4000 v ++ w) ∧
      (∀ v, prev.lookup "agent4" = some v →
        ∃ u w, standardisationWriterUserPrompt prev = u ++ pyTake 4000 v ++ w) ∧
      (prev.lookup "agent1" = none →
        standardisationWriterUserPrompt prev
          = standardisationWriterUserPrompt (("agent1", "") :: prev)) ∧
      (prev.lookup "agent2" = none →
        standardisationWriterUserPrompt prev
          = standardisationWriterUserPrompt (("agent2", "") :: prev)) ∧
      (prev.lookup "agent3" = none →
        standardisationWriterUserPrompt prev
          = standardisationWriterUserPrompt (("agent3", "") :: prev)) ∧
      (prev.lookup "agent4" = none →
        standardisationWriterUserPrompt prev
          = standardisationWriterUserPrompt (("agent4", "") :: prev)) := by
  intro prev
  refine ⟨?_, ?_, ?_, ?_, ?_, ?_, ?_, ?_⟩
  · intro v h
    refine ⟨"You are creating the final standardized BOP procedures.\n\n# Agent 1 – Comparison Analysis\n\n",
      "...\n\n# Agent 2 – Gap Analysis\n\n" ++ pyTake 4000 ((prev.lookup "agent2").getD "") ++
      "...\n\n# Agent 3 – HP Evaluation\n\n" ++ pyTake 4000 ((prev.lookup "agent3").getD "") ++
      "...\n\n# Agent 4 – Equipment Validation\n\n" ++ pyTake 4000 ((prev.lookup "agent4").getD "") ++
      "...\n\nSynthesize all findings into a comprehensive standardized ROP and JSA.", ?_⟩
    simp only [standardisationWriterUserPrompt, h]
    apply strEq_of_data
    simp [strData_append, List.append_assoc]
  · intro v h
    refine ⟨"You are creating the final standardized BOP procedures.\n\n# Agent 1 – Comparison Analysis\n\n" ++
      pyTake 5000 ((prev.lookup "agent1").getD "") ++ "...\n\n# Agent 2 – Gap Analysis\n\n",
      "...\n\n# Agent 3 – HP Evaluation\n\n" ++ pyTake 4000 ((prev.lookup "agent3").getD "") ++
      "...\n\n# Agent 4 – Equipment Validation\n\n" ++ pyTake 4000 ((prev.lookup "agent4").getD "") ++
      "...\n\nSynthesize all findings into a comprehensive standardized ROP and JSA.", ?_⟩
    simp only [standardisationWriterUserPrompt, h]
    apply strEq_of_data
    simp [strData_append, List.append_assoc]
  · intro v h
    refine ⟨"You are creating the final standardized BOP procedures.\n\n# Agent 1 – Comparison Analysis\n\n" ++
      pyTake 5000 ((prev.lookup "agent1").getD "") ++ "...\n\n# Agent 2 – Gap Analysis\n\n" ++
      pyTake 4000 ((prev.lookup "agent2").getD "") ++ "...\n\n# Agent 3 – HP Evaluation\n\n",
      "...\n\n# Agent 4 – Equipment Validation\n\n" ++ pyTake 4000 ((prev.lookup "agent4").getD "") ++
      "...\n\nSynthesize all findings into a comprehensive standardized ROP and JSA.", ?_⟩
    simp only [standardisationWriterUserPrompt, h]
    apply strEq_of_data
    simp [strData_append, List.append_assoc]
  · intro v h
    refine ⟨"You are creating the final standardized BOP procedures.\n\n# Agent 1 – Comparison Analysis\n\n" ++
      pyTake 5000 ((prev.lookup "agent1").getD "") ++ "...\n\n# Agent 2 – Gap Analysis\n\n" ++
      pyTake 4000 ((prev.lookup "agent2").getD "") ++ "...\n\n# Agent 3 – HP Evaluation\n\n" ++
      pyTake 4000 ((prev.lookup "agent3").getD "") ++ "...\n\n# Agent 4 – Equipment Validation\n\n",
      "...\n\nSynthesize all findings into a comprehensive standardized ROP and JSA.", ?_⟩
    simp only [standardisationWriterUserPrompt, h]
    apply strEq_of_data
    simp [strData_append, List.append_assoc]
  · intro h
    have e1 : (("agent1", "") :: prev).lookup "agent1" = some "" := lookup_cons_self _ _ _
    have e2 : (("agent1", "") :: prev).lookup "agent2" = prev.lookup "agent2" :=
      lookup_cons_ne _ _ _ _ (by decide)
    have e3 : (("agent1", "") :: prev).lookup "agent3" = prev.lookup "agent3" :=
      lookup_cons_ne _ _ _ _ (by decide)
    have e4 : (("agent1", "") :: prev).lookup "agent4" = prev.lookup "agent4" :=
      lookup_cons_ne _ _ _ _ (by decide)
    simp only [standardisationWriterUserPrompt, h, e1, e2, e3, e4, Option.getD_some,
      Option.getD_none]
  · intro h
    have e1 : (("agent2", "") :: prev).lookup "agent1" = prev.lookup "agent1" :=
      lookup_cons_ne _ _ _ _ (by decide)
    have e2 : (("agent2", "") :: prev).lookup "agent2" = some "" := lookup_cons_self _ _ _
    have e3 : (("agent2", "") :: prev).lookup "agent3" = prev.lookup "agent3" :=
      lookup_cons_ne _ _ _ _ (by decide)
    have e4 : (("agent2", "") :: prev).lookup "agent4" = prev.lookup "agent4" :=
      lookup_cons_ne _ _ _ _ (by decide)
    simp only [standardisationWriterUserPrompt, h, e1, e2, e3, e4, Option.getD_some,
      Option.getD_none]
  · intro h
    have e1 : (("agent3", "") :: prev).lookup "agent1" = prev.lookup "agent1" :=
      lookup_cons_ne _ _ _ _ (by decide)
    have e2 : (("agent3", "") :: prev).lookup "agent2" = prev.lookup "agent2" :=
      lookup_cons_ne _ _ _ _ (by decide)
    have e3 : (("agent3", "") :: prev).lookup "agent3" = some "" := lookup_cons_self _ _ _
    have e4 : (("agent3", "") :: prev).lookup "agent4" = prev.lookup "agent4" :=
      lookup_cons_ne _ _ _ _ (by decide)
    simp only [standardisationWriterUserPrompt, h, e1, e2, e3, e4, Option.getD_some,
      Option.getD_none]
  · intro h
    have e1 : (("agent4", "") :: prev).lookup "agent1" = prev.lookup "agent1" :=
      lookup_cons_ne _ _ _ _ (by decide)
    have e2 : (("agent4", "") :: prev).lookup "agent2" = prev.lookup "agent2" :=
      lookup_cons_ne _ _ _ _ (by decide)
    have e3 : (("agent4", "") :: prev).lookup "agent3" = prev.lookup "agent3" :=
      lookup_cons_ne _ _ _ _ (by decide)
    have e4 : (("agent4", "") :: prev).lookup "agent4" = some "" := lookup_cons_self _ _ _
    simp only [standardisationWriterUserPrompt, h, e1, e2, e3, e4, Option.getD_some,
      Option.getD_none]

/-- C4 witness: a context holding agent1 and agent3 only; the truncated agent1
content is included (hypothesis discharged by evaluation), and the absent
agent2 contributes nothing. -/
theorem C4_witness :
    (∃ u w, standardisationWriterUserPrompt [("agent1", "alpha"), ("agent3", "gamma")]
      = u ++ pyTake 5000 "alpha" ++ w) ∧
    standardisationWriterUserPrompt [("agent1", "alpha")]
      = standardisationWriterUserPrompt [("agent2", ""), ("agent1", "alpha")] :=
  ⟨(C4_stage5_prompt [("agent1", "alpha"), ("agent3", "gamma")]).1 "alpha" rfl,
   (C4_stage5_prompt [("agent1", "alpha")]).2.2.2.2.2.1 rfl⟩

/-- Code points of `String.mk`. -/
theorem strData_mk (l : List Char) : (String.mk l).data = l := rfl

/-- Composing two `pyTake`s takes the smaller budget. -/
theorem pyTake_pyTake (a b : Nat) (t : String) :
    pyTake a (pyTake b t) = pyTake (min a b) t := by
  apply strEq_of_data
  rw [pyTake_data, pyTake_data, pyTake_data, List.take_take]

/-- `pyTake` at a budget at least the length is the identity. -/
theorem pyTake_of_le (n : Nat) (t : String) (h : t.data.length ≤ n) :
    pyTake n t = t := by
  apply strEq_of_data
  rw [pyTake_data]
  exact List.take_of_length_le h

/-- C5 as stated is false: the stage-2 prompt builder
(`GapDetectorAgent.run`) includes the upstream agent1 output in full — it is
not a truncation to any fixed budget: no budget `b` makes the prompt depend
only on the first `b` code points of the output. -/
theorem C5_counterexample :
    ¬ ∃ b : Nat, ∀ s : String,
      gapDetectorUserPrompt [("agent1", s)]
        = gapDetectorUserPrompt [("agent1", pyTake b s)] := by
  rintro ⟨b, hb⟩
  have h := congrArg (fun t => t.data.length)
    (hb (String.mk (List.replicate (b + 1) 'a')))
  simp only [gapDetectorUserPrompt, lookup_cons_self, Option.getD_some, strData_append,
    List.length_append, pyTake_data, strData_mk, List.length_take,
    List.length_replicate] at h
  omega

/-- `pyTake` at one budget is idempotent. -/
theorem pyTake_idem (b : Nat) (t : String) : pyTake b (pyTake b t) = pyTake b t := by
  rw [pyTake_pyTake, Nat.min_self]

/-- C5 amended: every stage's user prompt is a pure function of the documents
and the run context.  Stage 1 depends on each document only through its first
8001 code points (cut at 8000 with "..." only when over budget); stage 4
depends on each document only through its first 6000 code points and on
agent1's output only through its first 4000 ("..." appended unconditionally);
stage 3 depends on agent1 and agent2's outputs only through their first 6000
and 4000 code points; stage 5 only through the first 5000/4000/4000/4000 code
points of agent1..agent4.  Stage 2, however, includes agent1's output in full,
untruncated. -/
theorem C5_prompt_truncation :
    (∀ (n t : String) (rest : List (String × String)),
      comparisonUserPrompt ((n, pyTake 8001 t) :: rest)
        = comparisonUserPrompt ((n, t) :: rest)) ∧
    (∀ (prev : List (String × String)) (v : String), prev.lookup "agent1" = some v →
      ∃ u w, gapDetectorUserPrompt prev = u ++ v ++ w) ∧
    (∀ a1 a2 : String,
      hpEvaluatorUserPrompt [("agent1", pyTake 6000 a1), ("agent2", pyTake 4000 a2)]
        = hpEvaluatorUserPrompt [("agent1", a1), ("agent2", a2)]) ∧
    (∀ (n t a1 : String) (rest : List (String × String)),
      equipmentValidatorUserPrompt ((n, pyTake 6000 t) :: rest) [("agent1", pyTake 4000 a1)]
        = equipmentValidatorUserPrompt ((n, t) :: rest) [("agent1", a1)]) ∧
    (∀ a1 a2 a3 a4 : String,
      standardisationWriterUserPrompt [("agent1", pyTake 5000 a1), ("agent2", pyTake 4000 a2),
          ("agent3", pyTake 4000 a3), ("agent4", pyTake 4000 a4)]
        = standardisationWriterUserPrompt [("agent1", a1), ("agent2", a2),
          ("agent3", a3), ("agent4", a4)]) := by
  refine ⟨?_, ?_, ?_, ?_, ?_⟩
  · intro n t rest
    have hbranch :
        (if 8000 < (pyTake 8001 t).data.length
          then "### " ++ n ++ "\n\n" ++ pyTake 8000 (pyTake 8001 t) ++ "..."
          else "### " ++ n ++ "\n\n" ++ pyTake 8001 t)
        = (if 8000 < t.data.length
          then "### " ++ n ++ "\n\n" ++ pyTake 8000 t ++ "..."
          else "### " ++ n ++ "\n\n" ++ t) := by
      have hlen : (pyTake 8001 t).data.length = min 8001 t.data.length := by
        rw [pyTake_data, List.length_take]
      by_cases h : 8000 < t.data.length
      · rw [if_pos h, if_pos (by omega), pyTake_pyTake]
        norm_num
      · rw [if_neg h, if_neg (by omega), pyTake_of_le 8001 t (by omega)]
    simp only [comparisonUserPrompt, List.map]
    rw [hbranch]
  · intro prev v h
    refine ⟨"You are analyzing BOP procedures for gaps and misalignments.\n\n# Agent 1 Comparison Output\n\n",
      "\n\nBased on this comparison, identify all gaps, missing steps, hazards, and misalignments.", ?_⟩
    simp only [gapDetectorUserPrompt, h, Option.getD_some]
    apply strEq_of_data
    simp [strData_append, List.append_assoc]
  · intro a1 a2
    have key : ∀ x1 x2 : String,
        hpEvaluatorUserPrompt [("agent1", x1), ("agent2", x2)]
          = "You are evaluating human performance factors in BOP procedures.\n\n" ++
            "# Agent 1 Comparison Output\n\n" ++ pyTake 6000 x1 ++ "...\n\n" ++
            "# Agent 2 Gap Analysis\n\n" ++ pyTake 4000 x2 ++ "...\n\n" ++
            "Evaluate human performance maturity, critical controls, and error prevention." :=
      fun _ _ => rfl
    rw [key, key, pyTake_idem, pyTake_idem]
  · intro n t a1 rest
    have key : ∀ (x y : String) (r : List (String × String)),
        equipmentValidatorUserPrompt ((n, x) :: r) [("agent1", y)]
          = "You are validating equipment specifications for BOP standardization.\n\n" ++
            "# Documents (Equipment Sections)\n\n" ++
            pyJoin "\n\n" (("### " ++ n ++ "\n\n" ++ pyTake 6000 x ++ "...") ::
              r.map (fun p => "### " ++ p.1 ++ "\n\n" ++ pyTake 6000 p.2 ++ "...")) ++ "\n\n" ++
            "# Agent 1 Comparison (for context)\n\n" ++ pyTake 4000 y ++ "...\n\n" ++
            "Extract and compare all equipment specifications. Assess standardization feasibility." :=
      fun _ _ _ => rfl
    rw [key, key, pyTake_idem, pyTake_idem]
  · intro a1 a2 a3 a4
    have key : ∀ x1 x2 x3 x4 : String,
        standardisationWriterUserPrompt [("agent1", x1), ("agent2", x2),
            ("agent3", x3), ("agent4", x4)]
          = "You are creating the final standardized BOP procedures.\n\n" ++
            "# Agent 1 – Comparison Analysis\n\n" ++ pyTake 5000 x1 ++ "...\n\n" ++
            "# Agent 2 – Gap Analysis\n\n" ++ pyTake 4000 x2 ++ "...\n\n" ++
            "# Agent 3 – HP Evaluation\n\n" ++ pyTake 4000 x3 ++ "...\n\n" ++
            "# Agent 4 – Equipment Validation\n\n" ++ pyTake 4000 x4 ++ "...\n\n" ++
            "Synthesize all findings into a comprehensive standardized ROP and JSA." :=
      fun _ _ _ _ => rfl
    rw [key, key]
    simp only [pyTake_idem]

/-- C5 witness: the stage-2 full-inclusion part at a concrete context,
hypothesis discharged by evaluation. -/
theorem C5_witness :
    ∃ u w, gapDetectorUserPrompt [("agent1", "abc")] = u ++ "abc" ++ w :=
  C5_prompt_truncation.2.1 [("agent1", "abc")] "abc" rfl

/-- C10: `GapDetectorAgent.run` and `EquipmentValidatorAgent.run` overwrite the
wrapped agent's system prompt from the stored base prompt, the operation label
and the first 1500 code points of the first document (empty for an empty
document set); the post-run state depends only on the call's arguments, so a
run started from a post-run state coincides with one started from the initial
state (no accumulation), and equal arguments leave equal system prompts. -/
theorem C10_system_prompt_overwrite :
    ∀ (settings : Settings) (g : GapDetectorAgent) (eq : EquipmentValidatorAgent)
      (docs prev docs2 prev2 : List (String × String)) (bk bk2 : String)
      (opn opn2 : Option String) (w w2 : CallWorld),
      GapDetectorAgent.run settings
          (GapDetectorAgent.run settings g docs prev bk opn w).2 docs2 prev2 bk2 opn2 w2
        = GapDetectorAgent.run settings g docs2 prev2 bk2 opn2 w2 ∧
      (GapDetectorAgent.run settings g docs prev bk opn w).2.agent.system_prompt
        = gapDetectorSystemPrompt g.base_prompt opn docs ∧
      (GapDetectorAgent.run settings g docs prev bk opn w).2.base_prompt = g.base_prompt ∧
      (GapDetectorAgent.run settings g docs prev bk opn w).2.agent.name = g.agent.name ∧
      (∀ (base n t : String) (opname : Option String) (rest : List (String × String)),
        gapDetectorSystemPrompt base opname ((n, t) :: rest)
          = base ++ "\n\nOperation context: " ++
            pyOrStr opname "the current operation described in the documents" ++
            ".\nSource document snippet (for grounding):\n" ++ pyTake 1500 t) ∧
      (∀ (base : String) (opname : Option String),
        gapDetectorSystemPrompt base opname []
          = base ++ "\n\nOperation context: " ++
            pyOrStr opname "the current operation described in the documents" ++
            ".\nSource document snippet (for grounding):\n") ∧
      EquipmentValidatorAgent.run settings
          (EquipmentValidatorAgent.run settings eq docs prev bk opn w).2 docs2 prev2 bk2 opn2 w2
        = EquipmentValidatorAgent.run settings eq docs2 prev2 bk2 opn2 w2 ∧
      (EquipmentValidatorAgent.run settings eq docs prev bk opn w).2.agent.system_prompt
        = equipmentValidatorSystemPrompt eq.base_prompt opn docs ∧
      (EquipmentValidatorAgent.run settings eq docs prev bk opn w).2.base_prompt
        = eq.base_prompt ∧
      (EquipmentValidatorAgent.run settings eq docs prev bk opn w).2.agent.name
        = eq.agent.name ∧
      (∀ (base n t : String) (opname : Option String) (rest : List (String × String)),
        equipmentValidatorSystemPrompt base opname ((n, t) :: rest)
          = base ++ "\n\nOperation context: " ++
            pyOrStr opname "the current operation described in the documents" ++
            ".\nSource document snippet (for grounding):\n" ++ pyTake 1500 t) ∧
      (∀ (base : String) (opname : Option String),
        equipmentValidatorSystemPrompt base opname []
          = base ++ "\n\nOperation context: " ++
            pyOrStr opname "the current operation described in the documents" ++
            ".\nSource document snippet (for grounding):\n") := by
  intro settings g eq docs prev docs2 prev2 bk bk2 opn opn2 w w2
  refine ⟨rfl, rfl, rfl, rfl, fun base n t opname rest => rfl, ?_,
          rfl, rfl, rfl, rfl, fun base n t opname rest => rfl, ?_⟩
  · intro base opname
    apply strEq_of_data
    simp [gapDetectorSystemPrompt, strData_append, pyTake_data, List.append_assoc]
  · intro base opname
    apply strEq_of_data
    simp [equipmentValidatorSystemPrompt, strData_append, pyTake_data, List.append_assoc]

/-- A left fold adding `f` of each element equals the sum of the mapped list. -/
theorem foldl_add_eq_sum {α : Type} (f : α → ℚ) (l : List α) :
    l.foldl (fun acc x => acc + f x) 0 = (l.map f).sum := by
  rw [List.sum_eq_foldl, List.foldl_map]

/-- The `total_tokens` entry of the sequential summary is the sum of the
stages' `tokens_total` metadata values (0 when absent). -/
theorem sequentialSummary_total_tokens (operation_name ts backend : String)
    (stages : List (String × AgentResult)) :
    (sequentialSummary operation_name ts backend stages).lookup "total_tokens"
      = some (JVal.num
          ((stages.map (fun p => metaNumD p.2.meta "tokens_total" 0)).sum)) := by
  have h : (sequentialSummary operation_name ts backend stages).lookup "total_tokens"
      = some (JVal.num
          (stages.foldl (fun acc p => acc + metaNumD p.2.meta "tokens_total" 0) 0)) := rfl
  rw [h, foldl_add_eq_sum]

/-- C3: one invocation of the five-stage workflow writes exactly the five
stage content files, the five stage metadata files and the one summary file
(in that order, eleven writes in all), and the summary's `total_tokens` is the
sum over the five stage results of their `tokens_total` metadata value, a
stage without `tokens_total` contributing 0. -/
theorem C3_five_stage_persistence :
    ∀ (settings : Settings) (wf : ADNOCWorkflow) (operation_name ts : String)
      (documents : List (String × String)) (world : WorkflowWorld),
      (runCompleteWorkflow settings wf operation_name ts documents world).files.map Prod.fst
        = ["agent1_comparison.md", "agent1_comparison.meta.json",
           "agent2_gaps.md", "agent2_gaps.meta.json",
           "agent3_hp_evaluation.md", "agent3_hp_evaluation.meta.json",
           "agent4_equipment_validation.md", "agent4_equipment_validation.meta.json",
           "agent5_standardisation.md", "agent5_standardisation.meta.json",
           "summary.json"] ∧
      (runCompleteWorkflow settings wf operation_name ts documents world).results.length = 5 ∧
      (runCompleteWorkflow settings wf operation_name ts documents world).summary.lookup
          "total_tokens"
        = some (JVal.num
            (((runCompleteWorkflow settings wf operation_name ts documents world).results.map
              (fun r => metaNumD r.meta "tokens_total" 0)).sum)) := by
  intro settings wf operation_name ts documents world
  refine ⟨rfl, rfl, ?_⟩
  exact sequentialSummary_total_tokens _ _ _ _

/-- C7: in every five-stage run, the context passed to stage k holds exactly
the outputs of stages 1..k-1 under their stage keys, in order, and nothing
else — empty for stage 1 — because each stage's content is appended only
after that stage completes. -/
theorem C7_context_strictly_linear :
    ∀ (settings : Settings) (wf : ADNOCWorkflow) (operation_name ts : String)
      (documents : List (String × String)) (world : WorkflowWorld),
      ∃ c1 c2 c3 c4 c5 : String,
        (runCompleteWorkflow settings wf operation_name ts documents world).results.map
            AgentResult.content = [c1, c2, c3, c4, c5] ∧
        (runCompleteWorkflow settings wf operation_name ts documents world).contexts
          = [[],
             [("agent1", c1)],
             [("agent1", c1), ("agent2", c2)],
             [("agent1", c1), ("agent2", c2), ("agent3", c3)],
             [("agent1", c1), ("agent2", c2), ("agent3", c3), ("agent4", c4)]] := by
  intro settings wf operation_name ts documents world
  exact ⟨_, _, _, _, _, rfl, rfl⟩

/-- C8 as stated is false: on a concrete run (default settings, one document,
no vendor credentials) the sequential-mode summary has no `mode` field, and
the integrated-mode summary has no `agents` field (it has a single `agent`
object instead). -/
theorem C8_counterexample :
    (runCompleteWorkflow {} sampleWorkflow "BOP Installation" "20250101-000000"
        [("Doc A", "hello world")]
        ⟨stubCallWorld, stubCallWorld, stubCallWorld, stubCallWorld, stubCallWorld⟩).summary.lookup
        "mode" = none ∧
    (runIntegratedWorkflow {} sampleWorkflow "BOP Installation" "20250101-000000"
        [("Doc A", "hello world")] stubCallWorld).summary.lookup "agents" = none :=
  ⟨rfl, rfl⟩

/-- C8 amended: the sequential-mode summary holds exactly the fields
operation, timestamp, backend, agents (each entry that stage's metadata plus
its name), total_tokens and total_duration_seconds — but no mode field; the
integrated-mode summary holds exactly operation, timestamp, backend, mode
(valued "integrated"), rig_name, operation_type, agent (the single stage's
metadata object, not an agents list), total_tokens and total_duration_seconds. -/
theorem C8_summary_fields :
    ∀ (settings : Settings) (wf : ADNOCWorkflow) (operation_name ts : String)
      (documents : List (String × String)) (world : WorkflowWorld) (w : CallWorld),
      (runCompleteWorkflow settings wf operation_name ts documents world).summary.map
          Prod.fst
        = ["operation", "timestamp", "backend", "agents", "total_tokens",
           "total_duration_seconds"] ∧
      (∃ rs : List (String × AgentResult),
        (runCompleteWorkflow settings wf operation_name ts documents world).results
            = rs.map Prod.snd ∧
        rs.map Prod.fst = ["agent1_comparison", "agent2_gaps", "agent3_hp_evaluation",
           "agent4_equipment_validation", "agent5_standardisation"] ∧
        (runCompleteWorkflow settings wf operation_name ts documents world).summary.lookup
            "agents"
          = some (JVal.arr (rs.map (fun p =>
              JVal.obj (p.2.meta ++ [("name", JVal.str p.1)]))))) ∧
      (runIntegratedWorkflow settings wf operation_name ts documents w).summary.map Prod.fst
        = ["operation", "timestamp", "backend", "mode", "rig_name", "operation_type",
           "agent", "total_tokens", "total_duration_seconds"] ∧
      (runIntegratedWorkflow settings wf operation_name ts documents w).summary.lookup "mode"
        = some (JVal.str "integrated") := by
  intro settings wf operation_name ts documents world w
  exact ⟨rfl, ⟨_, rfl, rfl, rfl⟩, rfl, rfl⟩
